import Mathlib

/-!
Verification of the openssl-tools capability probe
(src/tests/e2e/test_package/test_openssl.c) and the build-cache fixture
(src/tests/fixtures/test-cache/src/math_utils.c).

The probe is a straight-line C `main` that evaluates an ordered list of
checks against the OpenSSL library, printing a result line per check and
returning 1 at the first disqualifying failure (fail-fast) or 0 after the
whole list, with `EVP_cleanup`/`ERR_free_strings` called only on the
full-success path.  We embed it as a pure function of a `Provider` record
that captures the outcomes of every external library call the program
makes; resource acquisition and release are recorded as an event trace.
-/

namespace OpensslTools

/-- Outcome classification of one capability check (spec section 3). -/
inductive Status where
  | pass
  | fail
  | skipped
deriving DecidableEq, Repr

/-- Capability category of a check (spec section 3). -/
inductive Category where
  | info
  | sslInit
  | digest
  | random
  | errorHandling
  | bufferOps
  | contextLifecycle
  | algorithmAvailability
  | config
deriving DecidableEq, Repr

/-- Provider-side resource and cleanup events emitted while a check runs.
`bioAlloc`/`bioFree` model `BIO_new`/`BIO_free`, `sslCtxAlloc`/`sslCtxFree`
model `SSL_CTX_new`/`SSL_CTX_free`, `mdCtxAlloc`/`mdCtxFree` model
`EVP_MD_CTX_new`/`EVP_MD_CTX_free`, and `evpCleanup`/`errFreeStrings` model
the terminal `EVP_cleanup()`/`ERR_free_strings()` calls. -/
inductive Event where
  | bioAlloc
  | bioFree
  | sslCtxAlloc
  | sslCtxFree
  | mdCtxAlloc
  | mdCtxFree
  | evpCleanup
  | errFreeStrings
deriving DecidableEq, Repr

/-- The black-box cryptographic provider: one field per distinct outcome of
an external library call made by `main` in test_openssl.c.  Boolean fields
record the success indicator of the corresponding call; string fields are
the informational payloads used only in detail messages. -/
structure Provider where
  version : String
  ssl_library_init : Bool
  ssl_load_error_strings : Bool
  add_all_algorithms : Bool
  evp_sha256 : Bool
  sha256_size : Int
  sha256_block_size : Int
  rand_bytes : Bool
  rand_sample : String
  md_ctx_new : Bool
  bio_new : Bool
  bio_write_ret : Int
  ssl_ctx_new : Bool
  ssl_method_version : String
  md_ctx_new2 : Bool
  digest_by_name : String → Bool
  cipher_by_name : String → Bool
  conf_file : Option String
  fips_mode : Bool

/-- Result of evaluating one capability check (spec section 3). -/
structure CheckResult where
  category : Category
  status : Status
  detail : String
deriving DecidableEq, Repr

/-- One capability check: its category and its evaluation against the
provider, yielding a status, a detail message and the resource events the
check performs. -/
structure Check where
  category : Category
  eval : Provider → Status × String × List Event

/-- Test 1: version queries; `OpenSSL_version` has no failure path. -/
def versionCheck : Check :=
  ⟨.info, fun p => (.pass, "OpenSSL Version: " ++ p.version, [])⟩

/-- Test 2a: `SSL_library_init() == 1`, else `return 1`. -/
def sslLibraryInitCheck : Check :=
  ⟨.sslInit, fun p =>
    if p.ssl_library_init then (.pass, "SSL_library_init() successful", [])
    else (.fail, "SSL_library_init() failed", [])⟩

/-- Test 2b: `SSL_load_error_strings() == 1`, else `return 1`. -/
def sslLoadErrorStringsCheck : Check :=
  ⟨.sslInit, fun p =>
    if p.ssl_load_error_strings then (.pass, "SSL_load_error_strings() successful", [])
    else (.fail, "SSL_load_error_strings() failed", [])⟩

/-- Test 2c: `OpenSSL_add_all_algorithms() == 1`, else `return 1`. -/
def addAllAlgorithmsCheck : Check :=
  ⟨.sslInit, fun p =>
    if p.add_all_algorithms then (.pass, "OpenSSL_add_all_algorithms() successful", [])
    else (.fail, "OpenSSL_add_all_algorithms() failed", [])⟩

/-- Test 3: `EVP_sha256()` non-null, detail reports digest and block size,
else `return 1`. -/
def evpSha256Check : Check :=
  ⟨.digest, fun p =>
    if p.evp_sha256 then
      (.pass, "SHA-256 digest size: " ++ toString p.sha256_size ++
        " bytes, block size: " ++ toString p.sha256_block_size ++ " bytes", [])
    else (.fail, "EVP_sha256() failed", [])⟩

/-- Test 4: `RAND_bytes(buf, 32) == 1`, detail shows sample bytes, else
`return 1`. -/
def randBytesCheck : Check :=
  ⟨.random, fun p =>
    if p.rand_bytes then
      (.pass, "Generated 32 random bytes, sample: " ++ p.rand_sample, [])
    else (.fail, "RAND_bytes() failed", [])⟩

/-- Test 5: `EVP_MD_CTX_new()`; a null return is reported as error handling
working (Pass with alternate detail), a non-null context is freed and also
reported Pass.  Neither branch terminates the run. -/
def errorHandlingCheck : Check :=
  ⟨.errorHandling, fun p =>
    if p.md_ctx_new then
      (.pass, "EVP_MD_CTX operations successful", [.mdCtxAlloc, .mdCtxFree])
    else
      (.pass, "Error handling working (EVP_MD_CTX_new failed as expected)", [])⟩

/-- Test 6: `BIO_new(BIO_s_mem())` then `BIO_write`.  On a null BIO the
check fails with no resource acquired; when `BIO_write` returns a
non-positive count the program returns 1 without calling `BIO_free`, so the
emitted trace holds the allocation with no matching free; on success the
BIO is freed. -/
def bioCheck : Check :=
  ⟨.bufferOps, fun p =>
    if p.bio_new then
      if 0 < p.bio_write_ret then
        (.pass, "BIO_write() successful (" ++ toString p.bio_write_ret ++ " bytes)",
          [.bioAlloc, .bioFree])
      else
        (.fail, "BIO_write() failed", [.bioAlloc])
    else (.fail, "BIO_new(BIO_s_mem()) failed", [])⟩

/-- Test 7: `SSL_CTX_new(TLS_client_method())`; on success the context is
freed before the run proceeds, on null the check fails. -/
def sslCtxCheck : Check :=
  ⟨.contextLifecycle, fun p =>
    if p.ssl_ctx_new then
      (.pass, "SSL context version: " ++ p.ssl_method_version,
        [.sslCtxAlloc, .sslCtxFree])
    else (.fail, "SSL_CTX_new(TLS_client_method()) failed", [])⟩

/-- Test 8: memory-management check, a second `EVP_MD_CTX_new`; freed on
success, fails the run on null. -/
def memCheck : Check :=
  ⟨.contextLifecycle, fun p =>
    if p.md_ctx_new2 then
      (.pass, "EVP_MD_CTX_free() successful", [.mdCtxAlloc, .mdCtxFree])
    else (.fail, "EVP_MD_CTX_new() failed", [])⟩

/-- The 8 algorithm names probed by test 9, in source order. -/
def algorithms : List String :=
  ["SHA256", "SHA512", "AES-256-CBC", "AES-256-GCM", "RSA", "ECDSA", "ECDH", "DH"]

/-- Test 9, one entry per name: available when a digest or cipher lookup
succeeds, otherwise reported not available; never a failure. -/
def algoCheck (name : String) : Check :=
  ⟨.algorithmAvailability, fun p =>
    if p.digest_by_name name || p.cipher_by_name name then
      (.pass, name ++ " available", [])
    else (.skipped, name ++ " not available", [])⟩

/-- The `available_count` loop of test 9: increments once per name whose
digest or cipher lookup succeeds. -/
def available_count (p : Provider) : Nat :=
  algorithms.foldl
    (fun acc a => if p.digest_by_name a || p.cipher_by_name a then acc + 1 else acc) 0

/-- Test 10: reports `OPENSSL_CONF` (or that it is not set) and the FIPS
mode flag; purely informational, always Pass. -/
def configCheck : Check :=
  ⟨.config, fun p =>
    (.pass,
      (match p.conf_file with
       | some f => "OPENSSL_CONF: " ++ f
       | none => "OPENSSL_CONF not set") ++
      (if p.fips_mode then "; FIPS mode enabled" else "; FIPS mode disabled"),
      [])⟩

/-- The probe's fixed ordered capability list, in the order `main`
executes it. -/
def checks : List Check :=
  [versionCheck, sslLibraryInitCheck, sslLoadErrorStringsCheck,
   addAllAlgorithmsCheck, evpSha256Check, randBytesCheck, errorHandlingCheck,
   bioCheck, sslCtxCheck, memCheck] ++
  algorithms.map algoCheck ++ [configCheck]

/-- Placeholder check used only as the default of out-of-range list
indexing in statements; it is never an element of `checks`. -/
def dummyCheck : Check := ⟨.info, fun _ => (.pass, "", [])⟩

/-- The CheckResult a given check produces on a given provider. -/
def resultOf (c : Check) (p : Provider) : CheckResult :=
  ⟨c.category, (c.eval p).1, (c.eval p).2.1⟩

/-- Fail-fast evaluation of a check list: results in execution order, a
flag recording whether the whole list was consumed without failure, and
the concatenated event trace.  On the first failing check evaluation stops
with that check's result appended. -/
def runChecks : List Check → Provider → List CheckResult × Bool × List Event
  | [], _ => ([], true, [])
  | c :: cs, p =>
    let r := c.eval p
    if r.1 = .fail then ([⟨c.category, r.1, r.2.1⟩], false, r.2.2)
    else
      let rest := runChecks cs p
      (⟨c.category, r.1, r.2.1⟩ :: rest.1, rest.2.1, r.2.2 ++ rest.2.2)

/-- Aggregate result of one probe run: the ordered check results, the
process exit code and the full event trace. -/
structure ProbeReport where
  results : List CheckResult
  exit : Nat
  trace : List Event
deriving Repr

/-- The whole probe (`main` of test_openssl.c): run the check list
fail-fast; on full consumption perform `EVP_cleanup()` and
`ERR_free_strings()` and exit 0, on a failure exit 1 with no cleanup calls
(the C code reaches the cleanup block only on the all-success path). -/
def run (p : Provider) : ProbeReport :=
  if (runChecks checks p).2.1 then
    ⟨(runChecks checks p).1, 0, (runChecks checks p).2.2 ++ [.evpCleanup, .errFreeStrings]⟩
  else ⟨(runChecks checks p).1, 1, (runChecks checks p).2.2⟩

/-- The ordered (category, status) sequence of a report, the shape the
idempotence property compares across runs. -/
def statusSeq (r : ProbeReport) : List (Category × Status) :=
  r.results.map (fun c => (c.category, c.status))

/-- A trace leaks no provider resource: every kind of allocation event is
matched by an equal number of release events. -/
def Balanced (t : List Event) : Prop :=
  t.count .bioAlloc = t.count .bioFree ∧
  t.count .sslCtxAlloc = t.count .sslCtxFree ∧
  t.count .mdCtxAlloc = t.count .mdCtxFree

/-- A fully functioning provider: every call succeeds, every algorithm
lookup resolves. -/
def goodP : Provider :=
  { version := "OpenSSL 3.0.0"
    ssl_library_init := true
    ssl_load_error_strings := true
    add_all_algorithms := true
    evp_sha256 := true
    sha256_size := 32
    sha256_block_size := 64
    rand_bytes := true
    rand_sample := "a3f09c"
    md_ctx_new := true
    bio_new := true
    bio_write_ret := 15
    ssl_ctx_new := true
    ssl_method_version := "TLSv1.3"
    md_ctx_new2 := true
    digest_by_name := fun _ => true
    cipher_by_name := fun _ => false
    conf_file := some "/etc/ssl/openssl.cnf"
    fips_mode := false }

/-- A second functioning provider differing from `goodP` only in detail
payloads (version string, random sample, write count, configuration). -/
def goodP2 : Provider :=
  { goodP with
    version := "OpenSSL 3.0.1"
    rand_sample := "0b77d1"
    bio_write_ret := 15
    ssl_method_version := "TLSv1.3"
    conf_file := none
    fips_mode := true }

/-- Provider on which `BIO_write` returns 0 while everything before the
BIO check succeeds: the run aborts inside test 6 with the BIO allocated
and never freed. -/
def pLeak : Provider := { goodP with bio_write_ret := 0 }

/-- Provider on which `EVP_sha256()` returns null: the run aborts
fail-fast at check index 4. -/
def pNoSha : Provider := { goodP with evp_sha256 := false }

/-! ## The build-cache fixture (math_utils.c)

C `int` is a 32-bit two's-complement machine integer; `wrap32` reduces an
unbounded integer into its representable range `[-2^31, 2^31)`
(4294967296 = 2^32, 2147483648 = 2^31). -/

/-- Two's-complement wrap-around of a 32-bit signed machine integer. -/
def wrap32 (x : Int) : Int := (x + 2147483648) % 4294967296 - 2147483648

/-- `int add(int a, int b) { return a + b; }` on 32-bit machine integers. -/
def add (a b : Int) : Int := wrap32 (a + b)

/-- `int multiply(int a, int b) { return a * b; }` on 32-bit machine
integers. -/
def multiply (a b : Int) : Int := wrap32 (a * b)

/-- `int fibonacci(int n)`: returns `n` when `n <= 1` (including every
negative input), otherwise the 32-bit machine sum of the two recursive
calls. -/
def fibonacci (n : Int) : Int :=
  if n ≤ 1 then n
  else wrap32 (fibonacci (n - 1) + fibonacci (n - 2))
termination_by n.toNat
decreasing_by
  all_goals
    simp only [not_le] at *
    omega

/-- When every check in the list evaluates without failure, the fail-fast
runner consumes the whole list and reports success. -/
theorem runChecks_pass_all (cs : List Check) (p : Provider)
    (h : ∀ c ∈ cs, (c.eval p).1 ≠ .fail) :
    (runChecks cs p).1 = cs.map (fun c => resultOf c p) ∧
    (runChecks cs p).2.1 = true := by
  induction cs with
  | nil => simp [runChecks]
  | cons c cs ih =>
    have hc : (c.eval p).1 ≠ .fail := h c (by simp)
    have ih' := ih (fun c' hc' => h c' (by simp [hc']))
    simp [runChecks, hc, resultOf, ih'.1, ih'.2]

/-- When the checks strictly before index i succeed and the check at index
i fails, the fail-fast runner stops there: the results are exactly those
of the first i+1 checks and the success flag is false. -/
theorem runChecks_fail_fast (cs : List Check) (p : Provider) :
    ∀ i, i < cs.length →
    (∀ j, j < i → ((cs.getD j dummyCheck).eval p).1 ≠ .fail) →
    ((cs.getD i dummyCheck).eval p).1 = .fail →
    (runChecks cs p).1 = (cs.take (i + 1)).map (fun c => resultOf c p) ∧
    (runChecks cs p).2.1 = false := by
  induction cs with
  | nil => intro i hi; simp at hi
  | cons c cs ih =>
    intro i hi hp hf
    cases i with
    | zero =>
      simp only [List.getD_cons_zero] at hf
      simp [runChecks, hf, resultOf]
    | succ i =>
      have hc : (c.eval p).1 ≠ .fail := by
        simpa using hp 0 (Nat.succ_pos _)
      have hrec := ih i (by simpa using hi)
        (fun j hj => by simpa using hp (j + 1) (by omega))
        (by simpa using hf)
      simp [runChecks, hc, resultOf, hrec.1, hrec.2]

/-- If the fail-fast runner reports success it consumed the whole list. -/
theorem runChecks_ok_length (cs : List Check) (p : Provider)
    (h : (runChecks cs p).2.1 = true) :
    (runChecks cs p).1.length = cs.length := by
  induction cs with
  | nil => simp [runChecks]
  | cons c cs ih =>
    by_cases hc : (c.eval p).1 = .fail
    · simp [runChecks, hc] at h
    · simp only [runChecks, if_neg hc] at h ⊢
      simpa using ih h

/-- Two providers on which every check in the list yields the same status
produce the same ordered (category, status) result sequence and the same
success flag. -/
theorem runChecks_status_eq (cs : List Check) (p1 p2 : Provider)
    (h : ∀ c ∈ cs, (c.eval p1).1 = (c.eval p2).1) :
    ((runChecks cs p1).1.map (fun r => (r.category, r.status)) =
      (runChecks cs p2).1.map (fun r => (r.category, r.status))) ∧
    (runChecks cs p1).2.1 = (runChecks cs p2).2.1 := by
  induction cs with
  | nil => simp [runChecks]
  | cons c cs ih =>
    have hc : (c.eval p1).1 = (c.eval p2).1 := h c (by simp)
    have ih' := ih (fun c' hc' => h c' (by simp [hc']))
    by_cases hf : (c.eval p1).1 = .fail
    · simp [runChecks, hf, hc ▸ hf, ← hc]
    · have hf2 : ¬ (c.eval p2).1 = .fail := hc ▸ hf
      simp [runChecks, hf, hf2, hc, ih'.1, ih'.2]

/-- Counts of two events stay equal across the runner's trace when they
are equal in every check's own event list. -/
theorem runChecks_count_eq (cs : List Check) (p : Provider) (e1 e2 : Event)
    (h : ∀ c ∈ cs, ((c.eval p).2.2).count e1 = ((c.eval p).2.2).count e2) :
    ((runChecks cs p).2.2).count e1 = ((runChecks cs p).2.2).count e2 := by
  induction cs with
  | nil => simp [runChecks]
  | cons c cs ih =>
    have hc := h c (by simp)
    have ih' := ih (fun c' hc' => h c' (by simp [hc']))
    by_cases hf : (c.eval p).1 = .fail
    · simpa [runChecks, hf] using hc
    · simp [runChecks, hf, List.count_append, hc, ih']

/-- An event absent from every check's event list is absent from the
runner's trace. -/
theorem runChecks_count_zero (cs : List Check) (p : Provider) (e : Event)
    (h : ∀ c ∈ cs, ((c.eval p).2.2).count e = 0) :
    ((runChecks cs p).2.2).count e = 0 := by
  induction cs with
  | nil => simp [runChecks]
  | cons c cs ih =>
    have hc := h c (by simp)
    have ih' := ih (fun c' hc' => h c' (by simp [hc']))
    by_cases hf : (c.eval p).1 = .fail
    · simpa [runChecks, hf] using hc
    · simp [runChecks, hf, List.count_append, hc, ih']

/-- No check's own event list contains a cleanup event: cleanup happens
only in the terminal block of `run`. -/
theorem check_no_cleanup (p : Provider) :
    ∀ c ∈ checks, ((c.eval p).2.2).count .evpCleanup = 0 ∧
      ((c.eval p).2.2).count .errFreeStrings = 0 := by
  intro c hc
  simp only [checks, algorithms, List.map, List.mem_append, List.mem_cons,
    List.mem_singleton, List.not_mem_nil, or_false] at hc
  rcases hc with ((rfl|rfl|rfl|rfl|rfl|rfl|rfl|rfl|rfl|rfl)|(rfl|rfl|rfl|rfl|rfl|rfl|rfl|rfl))|rfl
  all_goals
    simp only [versionCheck, sslLibraryInitCheck, sslLoadErrorStringsCheck,
      addAllAlgorithmsCheck, evpSha256Check, randBytesCheck, errorHandlingCheck,
      bioCheck, sslCtxCheck, memCheck, algoCheck, configCheck]
  all_goals
    repeat' split
  all_goals exact ⟨rfl, rfl⟩


/-- When `BIO_write` reports a positive count, every check's own event
list is balanced: each allocation it performs is matched by a release. -/
theorem check_events_balanced (p : Provider) (hw : 0 < p.bio_write_ret) :
    ∀ c ∈ checks, Balanced ((c.eval p).2.2) := by
  intro c hc
  simp only [checks, algorithms, List.map, List.mem_append, List.mem_cons,
    List.mem_singleton, List.not_mem_nil, or_false] at hc
  rcases hc with ((rfl|rfl|rfl|rfl|rfl|rfl|rfl|rfl|rfl|rfl)|(rfl|rfl|rfl|rfl|rfl|rfl|rfl|rfl))|rfl
  all_goals
    simp only [versionCheck, sslLibraryInitCheck, sslLoadErrorStringsCheck,
      addAllAlgorithmsCheck, evpSha256Check, randBytesCheck, errorHandlingCheck,
      bioCheck, sslCtxCheck, memCheck, algoCheck, configCheck, Balanced]
  all_goals
    repeat' split
  all_goals exact ⟨rfl, rfl, rfl⟩
  
/-- Every check's status is insensitive to the configuration-path value:
only the configuration check reads it, and only for its detail text. -/
theorem check_status_conf (p : Provider) (o : Option String) :
    ∀ c ∈ checks, (c.eval { p with conf_file := o }).1 = (c.eval p).1 := by
  intro c hc
  simp only [checks, algorithms, List.map, List.mem_append, List.mem_cons,
    List.mem_singleton, List.not_mem_nil, or_false] at hc
  rcases hc with ((rfl|rfl|rfl|rfl|rfl|rfl|rfl|rfl|rfl|rfl)|(rfl|rfl|rfl|rfl|rfl|rfl|rfl|rfl))|rfl
  all_goals rfl

/-- Two providers whose calls return the same success/failure indicators
give every check the same status, whatever the detail payloads are. -/
theorem check_status_indicators (p1 p2 : Provider)
    (h1 : p1.ssl_library_init = p2.ssl_library_init)
    (h2 : p1.ssl_load_error_strings = p2.ssl_load_error_strings)
    (h3 : p1.add_all_algorithms = p2.add_all_algorithms)
    (h4 : p1.evp_sha256 = p2.evp_sha256)
    (h5 : p1.rand_bytes = p2.rand_bytes)
    (h6 : p1.bio_new = p2.bio_new)
    (h7 : 0 < p1.bio_write_ret ↔ 0 < p2.bio_write_ret)
    (h8 : p1.ssl_ctx_new = p2.ssl_ctx_new)
    (h9 : p1.md_ctx_new2 = p2.md_ctx_new2)
    (h10 : ∀ a ∈ algorithms,
      (p1.digest_by_name a || p1.cipher_by_name a) =
      (p2.digest_by_name a || p2.cipher_by_name a)) :
    ∀ c ∈ checks, (c.eval p1).1 = (c.eval p2).1 := by
  intro c hc
  simp only [checks, List.mem_append, List.mem_cons, List.mem_singleton,
    List.not_mem_nil, or_false, List.mem_map] at hc
  rcases hc with ((rfl|rfl|rfl|rfl|rfl|rfl|rfl|rfl|rfl|rfl)|⟨a, ha, rfl⟩)|rfl
  · rfl
  · simp only [sslLibraryInitCheck, h1]
  · simp only [sslLoadErrorStringsCheck, h2]
  · simp only [addAllAlgorithmsCheck, h3]
  · simp only [evpSha256Check, h4]
    split <;> rfl
  · simp only [randBytesCheck, h5]
    split <;> rfl
  · simp only [errorHandlingCheck]
    split <;> split <;> rfl
  · simp only [bioCheck, h6]
    by_cases hb : p2.bio_new
    · simp only [hb, if_true]
      by_cases hwr : 0 < p2.bio_write_ret
      · simp [hwr, h7.mpr hwr]
      · have hwr1 : ¬ 0 < p1.bio_write_ret := fun h => hwr (h7.mp h)
        simp [hwr, hwr1]
    · simp [hb]
  · simp only [sslCtxCheck, h8]
    split <;> rfl
  · simp only [memCheck, h9]
  · simp only [algoCheck, h10 a ha]
  · rfl


/-- The results of a run are the runner's results, whichever way the run
ended. -/
theorem run_results (p : Provider) : (run p).results = (runChecks checks p).1 := by
  unfold run
  split <;> rfl

/-- The exit code is 0 when the runner consumed the whole list, else 1. -/
theorem run_exit (p : Provider) :
    (run p).exit = if (runChecks checks p).2.1 then 0 else 1 := by
  unfold run
  split <;> simp_all

/-- The trace of a run: the runner's trace, extended by the two cleanup
events exactly when the whole list was consumed. -/
theorem run_trace (p : Provider) :
    (run p).trace = (runChecks checks p).2.2 ++
      (if (runChecks checks p).2.1 then [.evpCleanup, .errFreeStrings] else []) := by
  unfold run
  split <;> simp_all

/-- A block of non-failing checks at the front of a list contributes its
results and events and leaves the runner's verdict to the remainder. -/
theorem runChecks_append_pass (l cs : List Check) (p : Provider)
    (h : ∀ c ∈ l, (c.eval p).1 ≠ .fail) :
    (runChecks (l ++ cs) p).1 = l.map (fun c => resultOf c p) ++ (runChecks cs p).1 ∧
    (runChecks (l ++ cs) p).2.1 = (runChecks cs p).2.1 := by
  induction l with
  | nil => simp
  | cons c l ih =>
    have hc : (c.eval p).1 ≠ .fail := h c (by simp)
    have ih' := ih (fun c' hc' => h c' (by simp [hc']))
    simp [runChecks, hc, resultOf, ih'.1, ih'.2]

/-- C1: when every check before position i succeeds and the check at
position i fails, the probe stops there: the report holds exactly the
i+1 results of positions 0..i (later capabilities are never evaluated)
and the process exits with code 1. -/
theorem fail_fast_at_first_failure (p : Provider) (i : Nat)
    (hi : i < checks.length)
    (hpass : ∀ j, j < i → ((checks.getD j dummyCheck).eval p).1 ≠ .fail)
    (hfail : ((checks.getD i dummyCheck).eval p).1 = .fail) :
    (run p).results = (checks.take (i + 1)).map (fun c => resultOf c p) ∧
    (run p).results.length = i + 1 ∧
    (run p).exit = 1 := by
  have h := runChecks_fail_fast checks p i hi hpass hfail
  refine ⟨by rw [run_results, h.1], ?_, by rw [run_exit, h.2]; rfl⟩
  rw [run_results, h.1, List.length_map, List.length_take]
  omega

/-- C1 witness: on the provider whose `EVP_sha256()` is null, the probe
stops at check index 4 with 5 results and exit code 1. -/
theorem fail_fast_at_first_failure_witness :
    (run pNoSha).results.length = 4 + 1 ∧ (run pNoSha).exit = 1 :=
  (fail_fast_at_first_failure pNoSha 4 (by decide) (by decide) (by decide)).2

/-- C2: when no check is classified Fail (Skipped outcomes permitted),
the probe evaluates the entire ordered list and exits with code 0. -/
theorem all_pass_full_run (p : Provider)
    (h : ∀ c ∈ checks, (c.eval p).1 ≠ .fail) :
    (run p).results = checks.map (fun c => resultOf c p) ∧
    (run p).results.length = checks.length ∧
    (run p).exit = 0 := by
  have hh := runChecks_pass_all checks p h
  refine ⟨by rw [run_results, hh.1], ?_, by rw [run_exit, hh.2]; rfl⟩
  rw [run_results, hh.1, List.length_map]

/-- C2 witness: on the fully functioning provider the probe evaluates all
19 checks and exits 0. -/
theorem all_pass_full_run_witness :
    (run goodP).results.length = checks.length ∧ (run goodP).exit = 0 :=
  (all_pass_full_run goodP (by decide)).2


/-- C5: the error-handling check classifies a null context handle from
`EVP_MD_CTX_new` as Pass with the alternate detail, classifies a non-null
handle as Pass after freeing it, and in neither case aborts the run. -/
theorem ctx_alloc_failure_is_pass (p : Provider) :
    (errorHandlingCheck.eval p).1 = .pass ∧
    (errorHandlingCheck.eval p).2.1 =
      (if p.md_ctx_new then "EVP_MD_CTX operations successful"
       else "Error handling working (EVP_MD_CTX_new failed as expected)") ∧
    (errorHandlingCheck.eval p).2.2 =
      (if p.md_ctx_new then [.mdCtxAlloc, .mdCtxFree] else ([] : List Event)) ∧
    (∀ cs, (runChecks (errorHandlingCheck :: cs) p).2.1 = (runChecks cs p).2.1) := by
  by_cases h : p.md_ctx_new <;>
    simp [errorHandlingCheck, runChecks, h]

/-- Count of passing lookups accumulated by the test-9 loop, related to
`List.countP` with an arbitrary starting accumulator. -/
theorem foldl_count (p : Provider) (l : List String) :
    ∀ acc : Nat,
      l.foldl (fun acc a =>
        if p.digest_by_name a || p.cipher_by_name a then acc + 1 else acc) acc =
      acc + l.countP (fun a => p.digest_by_name a || p.cipher_by_name a) := by
  induction l with
  | nil => simp
  | cons a l ih =>
    intro acc
    rw [List.foldl_cons, List.countP_cons]
    by_cases h : (p.digest_by_name a || p.cipher_by_name a) = true
    · rw [if_pos h, if_pos h, ih]
      omega
    · rw [if_neg h, if_neg h, ih]
      omega

/-- The Pass-classified entries among the availability checks are exactly
the names whose digest or cipher lookup succeeded. -/
theorem algo_status_count (p : Provider) (l : List String) :
    (l.map (fun a => ((algoCheck a).eval p).1)).count .pass =
      l.countP (fun a => p.digest_by_name a || p.cipher_by_name a) := by
  induction l with
  | nil => simp
  | cons a l ih =>
    by_cases h : (p.digest_by_name a || p.cipher_by_name a) = true
    · have hhead : ((algoCheck a).eval p).1 = Status.pass := by
        simp only [algoCheck]
        rw [if_pos h]
      rw [List.map_cons, hhead, List.count_cons, List.countP_cons, ih, if_pos h]
      simp
    · have hhead : ((algoCheck a).eval p).1 = Status.skipped := by
        simp only [algoCheck]
        rw [if_neg h]
      rw [List.map_cons, hhead, List.count_cons, List.countP_cons, ih, if_neg h]
      simp

/-- C6: availability checks never fail and never abort the run, whatever
subset of the 8 names is missing; the loop's available count equals the
number of names whose digest or cipher lookup succeeded, which equals the
number of Pass-classified availability entries; with every name present
the summary is 8/8. -/
theorem algo_availability (p : Provider) :
    (∀ a ∈ algorithms, ((algoCheck a).eval p).1 ≠ .fail) ∧
    (∀ cs, (runChecks (algorithms.map algoCheck ++ cs) p).2.1 =
      (runChecks cs p).2.1) ∧
    available_count p =
      algorithms.countP (fun a => p.digest_by_name a || p.cipher_by_name a) ∧
    available_count p =
      (algorithms.map (fun a => ((algoCheck a).eval p).1)).count .pass ∧
    ((∀ a ∈ algorithms, p.digest_by_name a || p.cipher_by_name a) →
      available_count p = 8 ∧ algorithms.length = 8) := by
  have hnf : ∀ a ∈ algorithms, ((algoCheck a).eval p).1 ≠ .fail := by
    intro a _
    simp only [algoCheck]
    by_cases h : (p.digest_by_name a || p.cipher_by_name a) = true
    · rw [if_pos h]
      simp
    · rw [if_neg h]
      simp
  have hcount : available_count p =
      algorithms.countP (fun a => p.digest_by_name a || p.cipher_by_name a) := by
    simpa [available_count] using foldl_count p algorithms 0
  refine ⟨hnf, ?_, hcount, ?_, ?_⟩
  · intro cs
    have hmem : ∀ c ∈ algorithms.map algoCheck, (c.eval p).1 ≠ .fail := by
      intro c hc
      obtain ⟨a, ha, rfl⟩ := List.mem_map.mp hc
      exact hnf a ha
    exact (runChecks_append_pass (algorithms.map algoCheck) cs p hmem).2
  · rw [hcount, algo_status_count]
  · intro hall
    refine ⟨?_, rfl⟩
    rw [hcount, List.countP_eq_length.mpr (by simpa using hall)]
    rfl

/-- C6 witness: on the fully functioning provider all 8 named algorithms
resolve and the count is 8 out of 8. -/
theorem algo_availability_witness :
    available_count goodP = 8 ∧ algorithms.length = 8 :=
  (algo_availability goodP).2.2.2.2 (by decide)


/-- C7: two probe runs whose provider calls return the same
success/failure indicators (detail payloads such as random bytes,
version strings or byte counts may differ) produce reports with
identical ordered category/status sequences and the same exit code. -/
theorem probe_idempotent (p1 p2 : Provider)
    (h1 : p1.ssl_library_init = p2.ssl_library_init)
    (h2 : p1.ssl_load_error_strings = p2.ssl_load_error_strings)
    (h3 : p1.add_all_algorithms = p2.add_all_algorithms)
    (h4 : p1.evp_sha256 = p2.evp_sha256)
    (h5 : p1.rand_bytes = p2.rand_bytes)
    (h6 : p1.bio_new = p2.bio_new)
    (h7 : 0 < p1.bio_write_ret ↔ 0 < p2.bio_write_ret)
    (h8 : p1.ssl_ctx_new = p2.ssl_ctx_new)
    (h9 : p1.md_ctx_new2 = p2.md_ctx_new2)
    (h10 : ∀ a ∈ algorithms,
      (p1.digest_by_name a || p1.cipher_by_name a) =
      (p2.digest_by_name a || p2.cipher_by_name a)) :
    statusSeq (run p1) = statusSeq (run p2) ∧ (run p1).exit = (run p2).exit := by
  have hs := runChecks_status_eq checks p1 p2
    (check_status_indicators p1 p2 h1 h2 h3 h4 h5 h6 h7 h8 h9 h10)
  constructor
  · simp only [statusSeq, run_results]
    exact hs.1
  · rw [run_exit, run_exit, hs.2]

/-- C7 witness: `goodP` and `goodP2` differ in version string, random
sample, configuration path and FIPS flag, yet yield the same ordered
category/status sequence and exit code. -/
theorem probe_idempotent_witness :
    statusSeq (run goodP) = statusSeq (run goodP2) ∧
    (run goodP).exit = (run goodP2).exit :=
  probe_idempotent goodP goodP2 rfl rfl rfl rfl rfl rfl (by decide) rfl rfl
    (by decide)

/-- C8: the optional configuration-path value is read-only and
informational: the configuration check passes whether it is present or
absent, and changing it changes neither the exit code nor the ordered
category/status sequence of the report. -/
theorem conf_path_no_influence (p : Provider) (o1 o2 : Option String) :
    (configCheck.eval p).1 = .pass ∧
    (run { p with conf_file := o1 }).exit = (run { p with conf_file := o2 }).exit ∧
    statusSeq (run { p with conf_file := o1 }) =
      statusSeq (run { p with conf_file := o2 }) := by
  have e1 := runChecks_status_eq checks { p with conf_file := o1 } p
    (check_status_conf p o1)
  have e2 := runChecks_status_eq checks { p with conf_file := o2 } p
    (check_status_conf p o2)
  refine ⟨rfl, ?_, ?_⟩
  · rw [run_exit, run_exit, e1.2, e2.2]
  · simp only [statusSeq, run_results]
    rw [e1.1, e2.1]


/-- C3 counterexample: on a provider where `BIO_new` succeeds but
`BIO_write` fails, the program returns 1 straight from the BIO block
without calling `BIO_free`: the trace holds one BIO allocation and no
matching release, so the claimed release-on-every-path discipline is
violated. -/
theorem bio_leak_counterexample :
    (run pLeak).exit = 1 ∧
    (run pLeak).trace.count .bioAlloc = 1 ∧
    (run pLeak).trace.count .bioFree = 0 ∧
    ¬ Balanced (run pLeak).trace := by
  refine ⟨by decide, by decide, by decide, ?_⟩
  intro hb
  have h1 := hb.1
  revert h1
  decide

/-- C3 (amended): every check releases the provider resources it acquired
before returning its result, on Pass and on Fail paths alike, except that
the BIO-operations check does not free its BIO when `BIO_write` fails; so
whenever `BIO_write` reports a positive count, the whole run's trace is
balanced: each allocation event has a matching release event. -/
theorem resources_released (p : Provider) (hw : 0 < p.bio_write_ret) :
    Balanced (run p).trace := by
  have hb := check_events_balanced p hw
  have b1 := runChecks_count_eq checks p .bioAlloc .bioFree
    (fun c hc => (hb c hc).1)
  have b2 := runChecks_count_eq checks p .sslCtxAlloc .sslCtxFree
    (fun c hc => (hb c hc).2.1)
  have b3 := runChecks_count_eq checks p .mdCtxAlloc .mdCtxFree
    (fun c hc => (hb c hc).2.2)
  rw [Balanced, run_trace]
  by_cases hok : (runChecks checks p).2.1 = true
  · simp only [hok, if_true, List.count_append]
    refine ⟨?_, ?_, ?_⟩ <;> simp [b1, b2, b3]
  · simp only [hok, if_false, List.count_append]
    refine ⟨?_, ?_, ?_⟩ <;> simp [b1, b2, b3]

/-- C3 witness: on the fully functioning provider every acquired resource
is released. -/
theorem resources_released_witness :
    0 < goodP.bio_write_ret ∧ Balanced (run goodP).trace :=
  ⟨by decide, resources_released goodP (by decide)⟩

/-- C4 counterexample: on the provider whose `EVP_sha256()` is null the
run terminates fail-fast with exit code 1 and the trace contains no
cleanup event at all: `EVP_cleanup`/`ERR_free_strings` are not performed
on fail-fast aborts, contradicting the claimed exactly-once cleanup on
every terminating run. -/
theorem cleanup_skipped_counterexample :
    (run pNoSha).exit = 1 ∧
    (run pNoSha).results.length < checks.length ∧
    (run pNoSha).trace.count .evpCleanup = 0 ∧
    (run pNoSha).trace.count .errFreeStrings = 0 := by
  decide

/-- C4 (amended): the cleanup calls `EVP_cleanup` and `ERR_free_strings`
are performed exactly once, after all evaluated checks, when the full
ordered list is consumed (exit code 0); on a fail-fast abort (exit code
1) they are not performed at all. -/
theorem cleanup_only_on_full_run (p : Provider) :
    ((run p).exit = 0 →
      (run p).trace = (runChecks checks p).2.2 ++ [.evpCleanup, .errFreeStrings] ∧
      (run p).trace.count .evpCleanup = 1 ∧
      (run p).trace.count .errFreeStrings = 1 ∧
      (run p).results.length = checks.length) ∧
    ((run p).exit = 1 →
      (run p).trace.count .evpCleanup = 0 ∧
      (run p).trace.count .errFreeStrings = 0) := by
  have z1 := runChecks_count_zero checks p .evpCleanup
    (fun c hc => (check_no_cleanup p c hc).1)
  have z2 := runChecks_count_zero checks p .errFreeStrings
    (fun c hc => (check_no_cleanup p c hc).2)
  by_cases hok : (runChecks checks p).2.1 = true
  · constructor
    · intro _
      refine ⟨by rw [run_trace, hok]; rfl, ?_, ?_, ?_⟩
      · rw [run_trace]
        simp [hok, List.count_append, z1]
      · rw [run_trace]
        simp [hok, List.count_append, z2]
      · rw [run_results]
        exact runChecks_ok_length checks p hok
    · intro hexit
      rw [run_exit] at hexit
      simp [hok] at hexit
  · constructor
    · intro hexit
      rw [run_exit] at hexit
      simp [hok] at hexit
    · intro _
      rw [run_trace]
      simp [hok, z1, z2]

/-- C4 witness: on the fully functioning provider the run exits 0, the
trace ends with the two cleanup events performed exactly once, and all
checks were evaluated. -/
theorem cleanup_only_on_full_run_witness :
    (run goodP).trace =
      (runChecks checks goodP).2.2 ++ [.evpCleanup, .errFreeStrings] ∧
    (run goodP).trace.count .evpCleanup = 1 ∧
    (run goodP).trace.count .errFreeStrings = 1 ∧
    (run goodP).results.length = checks.length :=
  (cleanup_only_on_full_run goodP).1 (by decide)


/-- A value already in the 32-bit signed range is unchanged by the
wrap-around reduction. -/
theorem wrap32_eq_self (x : Int) (hlo : -2147483648 ≤ x)
    (hhi : x < 2147483648) : wrap32 x = x := by
  unfold wrap32
  omega

/-- Wrap-around preserves the residue modulo 2^32. -/
theorem wrap32_emod (x : Int) : wrap32 x % 4294967296 = x % 4294967296 := by
  unfold wrap32
  omega

/-- C10: `add` and `multiply` are commutative; their results agree with
the mathematical sum and product modulo 2^32, and equal them exactly
whenever the mathematical value fits in the 32-bit signed range. -/
theorem add_multiply_spec (a b : Int) :
    add a b = add b a ∧
    multiply a b = multiply b a ∧
    add a b % 4294967296 = (a + b) % 4294967296 ∧
    multiply a b % 4294967296 = (a * b) % 4294967296 ∧
    (-2147483648 ≤ a + b → a + b < 2147483648 → add a b = a + b) ∧
    (-2147483648 ≤ a * b → a * b < 2147483648 → multiply a b = a * b) := by
  refine ⟨?_, ?_, wrap32_emod (a + b), wrap32_emod (a * b), ?_, ?_⟩
  · unfold add
    rw [Int.add_comm]
  · unfold multiply
    rw [Int.mul_comm]
  · intro hlo hhi
    exact wrap32_eq_self (a + b) hlo hhi
  · intro hlo hhi
    exact wrap32_eq_self (a * b) hlo hhi

/-- C10 witness: at 10 and 20, the fixture's inputs in main.c, `add`
yields 30 and `multiply` yields 200, and both commute. -/
theorem add_multiply_spec_witness :
    add 10 20 = 10 + 20 ∧ multiply 10 20 = 10 * 20 ∧
    add 10 20 = add 20 10 ∧ multiply 10 20 = multiply 20 10 :=
  ⟨(add_multiply_spec 10 20).2.2.2.2.1 (by norm_num) (by norm_num),
   (add_multiply_spec 10 20).2.2.2.2.2 (by norm_num) (by norm_num),
   (add_multiply_spec 10 20).1,
   (add_multiply_spec 10 20).2.1⟩

/-- Unfolding equation of the embedded `fibonacci`. -/
theorem fibonacci_def (n : Int) :
    fibonacci n =
      if n ≤ 1 then n else wrap32 (fibonacci (n - 1) + fibonacci (n - 2)) := by
  rw [fibonacci]

/-- On inputs whose standard Fibonacci value still fits in the 32-bit
signed range, the machine recursion computes the standard Fibonacci
number: no call in the recursion tree overflows. -/
theorem fibonacci_eq_fib (k : Nat) (h : (Nat.fib k : Int) < 2147483648) :
    fibonacci (k : Int) = Nat.fib k := by
  induction k using Nat.strong_induction_on with
  | _ k ih =>
    match k with
    | 0 =>
      rw [fibonacci_def]
      norm_num
    | 1 =>
      rw [fibonacci_def]
      norm_num
    | (m + 2) =>
      have hle1 : (Nat.fib (m + 1) : Int) ≤ (Nat.fib (m + 2) : Int) := by
        exact_mod_cast Nat.fib_le_fib_succ
      have hle0 : (Nat.fib m : Int) ≤ (Nat.fib (m + 1) : Int) := by
        exact_mod_cast Nat.fib_le_fib_succ
      have e1 := ih (m + 1) (by omega) (by omega)
      have e0 := ih m (by omega) (by omega)
      rw [fibonacci_def, if_neg (by push_cast; omega)]
      push_cast at e1 e0 ⊢
      rw [show (m : Int) + 2 - 1 = (m : Int) + 1 by ring, e1,
        show (m : Int) + 2 - 2 = (m : Int) by ring, e0]
      have hfib : (Nat.fib (m + 2) : Int) = (Nat.fib m : Int) + Nat.fib (m + 1) := by
        exact_mod_cast congrArg (Nat.cast : Nat → Int) (Nat.fib_add_two)
      have hnn : (0 : Int) ≤ Nat.fib (m + 1) + Nat.fib m := by positivity
      rw [wrap32_eq_self ((Nat.fib (m + 1) : Int) + Nat.fib m) (by omega)
        (by omega)]
      push_cast at hfib ⊢
      omega


/-- fib(45) still fits in a 32-bit signed int. -/
theorem fibonacci_45 : fibonacci 45 = 1134903170 := by
  have h := fibonacci_eq_fib 45 (by exact_mod_cast
    (by decide : Nat.fib 45 < 2147483648))
  have hv : Nat.fib 45 = 1134903170 := by decide
  rw [hv] at h
  exact_mod_cast h

/-- fib(46) is the largest Fibonacci number representable in int. -/
theorem fibonacci_46 : fibonacci 46 = 1836311903 := by
  have h := fibonacci_eq_fib 46 (by exact_mod_cast
    (by decide : Nat.fib 46 < 2147483648))
  have hv : Nat.fib 46 = 1836311903 := by decide
  rw [hv] at h
  exact_mod_cast h

/-- At 47 the sum fib(46)+fib(45) = 2971215073 exceeds 2^31-1 and wraps
to a negative value. -/
theorem fibonacci_47 : fibonacci 47 = -1323752223 := by
  rw [fibonacci_def]
  norm_num [fibonacci_46, fibonacci_45, wrap32]

/-- C9 counterexample: at input 47 the machine function does not return
the mathematical sum of its two recursive calls, and does not match the
standard Fibonacci sequence, because the 32-bit sum overflows and wraps:
fibonacci(47) = -1323752223 while fib(47) = 2971215073. -/
theorem fibonacci_overflow_counterexample :
    (2 : Int) ≤ 47 ∧
    fibonacci 47 ≠ fibonacci 46 + fibonacci 45 ∧
    fibonacci 47 ≠ ((Nat.fib 47 : Nat) : Int) ∧
    fibonacci 47 < 0 := by
  have h47 := fibonacci_47
  have h46 := fibonacci_46
  have h45 := fibonacci_45
  have hv : ((Nat.fib 47 : Nat) : Int) = 2971215073 := by
    exact_mod_cast congrArg (Nat.cast : Nat → Int)
      (by decide : Nat.fib 47 = 2971215073)
  refine ⟨by norm_num, ?_, ?_, by omega⟩
  · rw [h47, h46, h45]
    norm_num
  · rw [h47, hv]
    norm_num

/-- C9 (amended): the embedded `fibonacci` is a total function on machine
integers; it returns n unchanged for every n ≤ 1 (negatives included),
returns the 32-bit wrapped sum of the two recursive calls for every
n ≥ 2, and agrees with the standard Fibonacci sequence exactly on those
non-negative inputs whose Fibonacci value fits in the 32-bit signed
range (that is, up to n = 46). -/
theorem fibonacci_spec :
    (∀ n : Int, n ≤ 1 → fibonacci n = n) ∧
    (∀ n : Int, 2 ≤ n →
      fibonacci n = wrap32 (fibonacci (n - 1) + fibonacci (n - 2))) ∧
    (∀ k : Nat, (Nat.fib k : Int) < 2147483648 →
      fibonacci (k : Int) = Nat.fib k) := by
  refine ⟨?_, ?_, fibonacci_eq_fib⟩
  · intro n hn
    rw [fibonacci_def, if_pos hn]
  · intro n hn
    rw [fibonacci_def, if_neg (by omega)]

/-- C9 witness: the base clause at -7, the recursive clause at 10, and
the agreement clause at 10 give fibonacci(-7) = -7 and fibonacci(10) =
fib(10) = 55. -/
theorem fibonacci_spec_witness :
    fibonacci (-7) = -7 ∧ fibonacci 10 = 55 := by
  constructor
  · exact fibonacci_spec.1 (-7) (by norm_num)
  · have h := fibonacci_spec.2.2 10 (by exact_mod_cast
      (by decide : Nat.fib 10 < 2147483648))
    have hv : Nat.fib 10 = 55 := by decide
    rw [hv] at h
    exact_mod_cast h

end OpensslTools
